import Mathlib

/-!
Verification of the idempotent bulk-ingestion engine in
`src/app/routers/abastecimentos.py` (`bulk_create_abastecimentos`).

The Python routine is shallowly embedded: SQLAlchemy session state becomes an
explicit `DBState` (product catalog rows, ledger rows, next fresh ledger id);
Python floats become exact rationals (the routine only multiplies and compares
them); `uuid.UUID` parsing is modelled after CPython's `uuid.py` constructor
(remove `urn:` and `uuid:`, strip braces, drop hyphens, require 32 hex digits);
each awaited storage round-trip that can fail is given an explicit fault flag
so that the per-record `except` behaviour of the source can be stated.
-/

/-- UUID values, as 128-bit numbers produced by CPython's `uuid.UUID`. -/
abbrev UUID := Nat

/-- Hex digit value, models `int(_, 16)` digit handling. -/
def hexVal (c : Char) : Option Nat :=
  if '0' ≤ c ∧ c ≤ '9' then some (c.toNat - '0'.toNat)
  else if 'a' ≤ c ∧ c ≤ 'f' then some (c.toNat - 'a'.toNat + 10)
  else if 'A' ≤ c ∧ c ≤ 'F' then some (c.toNat - 'A'.toNat + 10)
  else none

/-- Value of a hex string, `none` when a character is not a hex digit. -/
def hexNat (l : List Char) : Option Nat :=
  l.foldl (fun acc c => acc.bind (fun a => (hexVal c).map (fun v => a * 16 + v))) (some 0)

/-- Remove every (left-to-right, non-overlapping) occurrence of `urn:`, the
behaviour of Python's `str.replace("urn:", "")`. -/
def removeUrn : List Char → List Char
  | 'u' :: 'r' :: 'n' :: ':' :: rest => removeUrn rest
  | c :: rest => c :: removeUrn rest
  | [] => []

/-- Remove every (left-to-right, non-overlapping) occurrence of `uuid:`, the
behaviour of Python's `str.replace("uuid:", "")`. -/
def removeUuid : List Char → List Char
  | 'u' :: 'u' :: 'i' :: 'd' :: ':' :: rest => removeUuid rest
  | c :: rest => c :: removeUuid rest
  | [] => []

/-- Python's `str.strip('{}')`: drop braces from both ends. -/
def stripBraces (l : List Char) : List Char :=
  ((l.dropWhile (fun c => c = '{' || c = '}')).reverse.dropWhile
    (fun c => c = '{' || c = '}')).reverse

/-- Model of CPython's `uuid.UUID(str)` constructor: remove `urn:` and
`uuid:`, strip surrounding braces, drop hyphens, then require exactly 32 hex
digits; `none` models the `ValueError` raised otherwise. -/
def parseUUID (s : String) : Option UUID :=
  let l1 := removeUrn s.toList
  let l2 := removeUuid l1
  let l3 := stripBraces l2
  let hx := l3.filter (fun c => !(c == '-'))
  if hx.length = 32 then hexNat hx else none

/-- Python truthiness of an optional string (`if s:`): `None` and `""` are
falsy. -/
def truthy : Option String → Bool
  | none => false
  | some s => !(s == "")

/-- One element of the `items` list of the bulk payload
(`AbastecimentoIn` in the source, field for field). -/
structure AbastecimentoIn where
  local_id : Option String
  produto_id : Option String
  produto_codigo : Option String
  usuario_id : Option String
  quantidade : ℚ
  custo_unitario : ℚ
  total_custo : Option ℚ
  observacao : Option String
  created_at : Option Int
deriving Repr, DecidableEq

/-- A persisted ledger row (`Abastecimento` model columns used by the
endpoint). -/
structure Abastecimento where
  id : Nat
  produto_id : UUID
  usuario_id : Option UUID
  quantidade : ℚ
  custo_unitario : ℚ
  total : ℚ
  total_custo : ℚ
  observacao : Option String
  created_at : Int
deriving Repr, DecidableEq

/-- A catalog row (`Produto` columns used by the endpoint). -/
structure Produto where
  id : UUID
  codigo : String
  estoque : ℚ
  updated_at : Int
deriving Repr, DecidableEq

/-- The storage state seen through the session: catalog rows, ledger rows and
the next fresh autoincrement ledger id. -/
structure DBState where
  produtos : List Produto
  ledger : List Abastecimento
  nextId : Nat
deriving Repr, DecidableEq

/-- A conflict entry, mirroring the two dict shapes the source builds:
`{"reason": "produto_nao_encontrado", "produto_id": ..., "produto_codigo": ...}`
and `{"reason": "erro_interno", "message": ..., "local_id": ...}`. -/
inductive Conflict where
  | produtoNaoEncontrado (produto_id : Option String) (produto_codigo : Option String)
  | erroInterno (message : String) (local_id : Option String)
deriving Repr, DecidableEq

/-- The `local_id` key of a conflict dict (`none` when the dict has no such
key). -/
def conflictLocalId : Conflict → Option String
  | Conflict.produtoNaoEncontrado _ _ => none
  | Conflict.erroInterno _ l => l

/-- The `message` key of a conflict dict (`none` when the dict has no such
key). -/
def conflictMessage : Conflict → Option String
  | Conflict.produtoNaoEncontrado _ _ => none
  | Conflict.erroInterno m _ => some m

/-- Per-record outcome bookkeeping: fresh insertion (with target product and
quantity), idempotent duplicate skip, or conflict. -/
inductive Outcome where
  | inserted (produto : UUID) (qtd : ℚ)
  | duplicate
  | conflict (c : Conflict)
deriving Repr, DecidableEq

/-- Fault flags for the awaited storage round-trips inside one record's
processing: the id-lookup `execute`, the code-lookup `execute`, the dedup
`execute`, the `flush` of the new row, and the `created_at` back-fill
`execute`. -/
structure Faults where
  resolveIdFault : Bool
  resolveCodeFault : Bool
  dupFault : Bool
  flushFault : Bool
  backfillFault : Bool
deriving Repr, DecidableEq

/-- A fault-free record processing. -/
def noFaults : Faults := ⟨false, false, false, false, false⟩

/-- Result of processing a single record: session state afterwards, the
increment of `inserted`, the strings appended to `accepted`, the entries
appended to `conflicts`, and the bookkeeping outcome. -/
structure RecResult where
  state : DBState
  insertedInc : Nat
  accepted : List String
  conflicts : List Conflict
  outcome : Outcome
deriving Repr, DecidableEq

/-- Accumulated result of the per-record loop. -/
structure BulkResult where
  inserted : Nat
  accepted : List String
  conflicts : List Conflict
  outcomes : List Outcome
  state : DBState
deriving Repr, DecidableEq

/-- The endpoint's observable result: the reported triple, whether the
transaction was committed, and the durable storage state afterwards. -/
structure BulkResponse where
  inserted : Nat
  accepted : List String
  conflicts : List Conflict
  outcomes : List Outcome
  committed : Bool
  durable : DBState
deriving Repr, DecidableEq

/-- Lines 137-143: lookup by `produto_id`, with `uuid.UUID` failure caught as
`ValueError: pass`. -/
def resolveById (s : DBState) (pid : Option String) : Option Produto :=
  if truthy pid then
    match parseUUID (pid.getD "") with
    | some v => s.produtos.find? (fun p => p.id == v)
    | none => none
  else none

/-- Lines 144-146: fallback lookup by `produto_codigo`. -/
def resolveByCodigo (s : DBState) (pcode : Option String) : Option Produto :=
  if truthy pcode then s.produtos.find? (fun p => p.codigo == pcode.getD "")
  else none

/-- Lines 136-146: id lookup takes precedence, code lookup is the fallback. -/
def resolveProduto (s : DBState) (pid pcode : Option String) : Option Produto :=
  match resolveById s pid with
  | some p => some p
  | none => resolveByCodigo s pcode

/-- Lines 156-161: parse the optional actor id, malformed values degrade to
`None`. -/
def parseUsuario (uid : Option String) : Option UUID :=
  if truthy uid then parseUUID (uid.getD "") else none

/-- One ledger row matches the composite dedup key (lines 179-190):
product, quantity, unit cost, total cost, claimed timestamp, actor-or-none. -/
def dupMatch (a : Abastecimento) (pid : UUID) (uu : Option UUID)
    (qtd cu tc : ℚ) (ts : Int) : Bool :=
  decide (a.produto_id = pid ∧ a.quantidade = qtd ∧ a.custo_unitario = cu ∧
    a.total_custo = tc ∧ a.created_at = ts ∧ a.usuario_id = uu)

/-- Lines 192-193: the dedup query (`limit(1)` existence check). -/
def dupExists (s : DBState) (pid : UUID) (uu : Option UUID)
    (qtd cu tc : ℚ) (ts : Int) : Bool :=
  s.ledger.any (fun a => dupMatch a pid uu qtd cu tc ts)

/-- Lines 174-197: the record is a duplicate when it carries a claimed
timestamp, the dedup lookup does not fault, and a row matching the composite
key exists. -/
def isDupOf (s : DBState) (item : AbastecimentoIn) (p : Produto) (f : Faults) : Bool :=
  match item.created_at with
  | none => false
  | some ts =>
      if f.dupFault then false
      else dupExists s p.id (parseUsuario item.usuario_id) item.quantidade
        item.custo_unitario (item.total_custo.getD (item.quantidade * item.custo_unitario)) ts

/-- In-place mutation of the catalog row held by the session (identity map):
every stored row with the mutated id shows the new attribute values. -/
def replaceProduto (l : List Produto) (p2 : Produto) : List Produto :=
  l.map (fun q => if q.id == p2.id then p2 else q)

/-- State after mutating a resolved catalog row. -/
def updateProduto (s : DBState) (p2 : Produto) : DBState :=
  { s with produtos := replaceProduto s.produtos p2 }

/-- Lines 220-227: `produto_obj.estoque += qtd` and the `updated_at` refresh
to the current instant. -/
def prodBump (p : Produto) (q : ℚ) (now : Int) : Produto :=
  { p with estoque := p.estoque + q, updated_at := now }

/-- Lines 205-213: the new `Abastecimento` row, with `total` computed as
quantity × unit cost and `total_custo` defaulted from the record or the
computed total; `created_at` is server-assigned at insertion. -/
def mkRow (now : Int) (s : DBState) (item : AbastecimentoIn) (p : Produto) : Abastecimento :=
  { id := s.nextId, produto_id := p.id, usuario_id := parseUsuario item.usuario_id,
    quantidade := item.quantidade, custo_unitario := item.custo_unitario,
    total := item.quantidade * item.custo_unitario,
    total_custo := item.total_custo.getD (item.quantidade * item.custo_unitario),
    observacao := item.observacao, created_at := now }

/-- Lines 195-196 and 241-242: `accepted.append(str(local_id))` guarded by
`local_id is not None`. -/
def acceptedOf (item : AbastecimentoIn) : List String :=
  match item.local_id with
  | some l => [l]
  | none => []

/-- Lines 243-244: a caught per-record exception becomes an `erro_interno`
conflict carrying the diagnostic text and the record's `local_id`; the session
state reached so far is kept as is. -/
def mkErroInterno (s : DBState) (m : String) (item : AbastecimentoIn) : RecResult :=
  { state := s, insertedInc := 0, accepted := [],
    conflicts := [Conflict.erroInterno m item.local_id],
    outcome := Outcome.conflict (Conflict.erroInterno m item.local_id) }

/-- Lines 148-153: the `produto_nao_encontrado` conflict dict, carrying only
the submitted product references. -/
def pnfConflict (item : AbastecimentoIn) : Conflict :=
  Conflict.produtoNaoEncontrado item.produto_id item.produto_codigo

/-- Lines 134-244: processing of a single record of the batch, including the
per-record `except` that converts any failure into an `erro_interno`
conflict. -/
def processRecord (now : Int) (s : DBState) (item : AbastecimentoIn) (f : Faults) : RecResult :=
  if f.resolveIdFault && truthy item.produto_id && (parseUUID (item.produto_id.getD "")).isSome then
    mkErroInterno s "erro_db_produto" item
  else if f.resolveCodeFault && (resolveById s item.produto_id).isNone && truthy item.produto_codigo then
    mkErroInterno s "erro_db_codigo" item
  else
    match resolveProduto s item.produto_id item.produto_codigo with
    | none =>
        { state := s, insertedInc := 0, accepted := [],
          conflicts := [pnfConflict item],
          outcome := Outcome.conflict (pnfConflict item) }
    | some produto_obj =>
        if isDupOf s item produto_obj f then
          { state := s, insertedInc := 0, accepted := acceptedOf item,
            conflicts := [], outcome := Outcome.duplicate }
        else
          let abast := mkRow now s item produto_obj
          let s1 := updateProduto s (prodBump produto_obj item.quantidade now)
          if f.flushFault then mkErroInterno s1 "erro_db_flush" item
          else
            let s2 : DBState := { s1 with ledger := s1.ledger ++ [abast], nextId := s1.nextId + 1 }
            match item.created_at with
            | some ts =>
                if f.backfillFault then mkErroInterno s2 "erro_db_update" item
                else
                  let led3 := s2.ledger.map
                    (fun a => if a.id == abast.id then { a with created_at := ts } else a)
                  { state := { s2 with ledger := led3 },
                    insertedInc := 1, accepted := acceptedOf item, conflicts := [],
                    outcome := Outcome.inserted produto_obj.id item.quantidade }
            | none =>
                { state := s2, insertedInc := 1, accepted := acceptedOf item, conflicts := [],
                  outcome := Outcome.inserted produto_obj.id item.quantidade }

/-- The per-record loop of lines 133-244, accumulating `inserted`,
`accepted` and `conflicts` in submission order. -/
def processItems (now : Int) : List (AbastecimentoIn × Faults) → DBState → BulkResult
  | [], s => { inserted := 0, accepted := [], conflicts := [], outcomes := [], state := s }
  | (item, f) :: rest, s =>
      let r := processRecord now s item f
      let rr := processItems now rest r.state
      { inserted := r.insertedInc + rr.inserted,
        accepted := r.accepted ++ rr.accepted,
        conflicts := r.conflicts ++ rr.conflicts,
        outcomes := r.outcome :: rr.outcomes,
        state := rr.state }

/-- Lines 126-251: the whole endpoint body. After the loop, lines 246-249
commit the session iff `inserted` is truthy, otherwise roll back (the durable
state stays the initial one). -/
def bulk_create_abastecimentos (now : Int) (db : DBState)
    (items : List (AbastecimentoIn × Faults)) : BulkResponse :=
  let r := processItems now items db
  if r.inserted ≠ 0 then
    { inserted := r.inserted, accepted := r.accepted, conflicts := r.conflicts,
      outcomes := r.outcomes, committed := true, durable := r.state }
  else
    { inserted := r.inserted, accepted := r.accepted, conflicts := r.conflicts,
      outcomes := r.outcomes, committed := false, durable := db }

/-- On-hand quantity of the product with the given id, `0` when absent. -/
def estoqueOfList (l : List Produto) (pid : UUID) : ℚ :=
  match l.find? (fun p => p.id == pid) with
  | some p => p.estoque
  | none => 0

/-- On-hand quantity read from a storage state. -/
def estoqueOf (s : DBState) (pid : UUID) : ℚ :=
  estoqueOfList s.produtos pid

/-- Contribution of one outcome to a product's on-hand quantity. -/
def contribution (o : Outcome) (pid : UUID) : ℚ :=
  match o with
  | Outcome.inserted p q => if p == pid then q else 0
  | _ => 0

/-- Sum of the quantities of the accepted fresh insertions against a
product. -/
def insertedSum (outs : List Outcome) (pid : UUID) : ℚ :=
  outs.foldr (fun o acc => contribution o pid + acc) 0

/-! ### Catalog list lemmas -/

/-- The id/code signature of a catalog row: everything product resolution can
depend on. -/
def prodSig (p : Produto) : UUID × String := (p.id, p.codigo)

theorem find?_id_eq_of_nodup {l : List Produto} {p : Produto}
    (hN : (l.map Produto.id).Nodup) (hp : p ∈ l) :
    l.find? (fun q => q.id == p.id) = some p := by
  induction l with
  | nil => cases hp
  | cons a t ih =>
    rcases List.mem_cons.mp hp with h | h
    · subst h
      simp [List.find?]
    · have ha : a.id ∉ t.map Produto.id := (List.nodup_cons.mp hN).1
      have hne : (a.id == p.id) = false := by
        apply beq_eq_false_iff_ne.mpr
        intro hcontra
        exact ha (hcontra ▸ List.mem_map_of_mem Produto.id h)
      simp only [List.find?, hne]
      exact ih (List.nodup_cons.mp hN).2 h

theorem replaceProduto_map_id (l : List Produto) (p2 : Produto) :
    (replaceProduto l p2).map Produto.id = l.map Produto.id := by
  unfold replaceProduto
  rw [List.map_map]
  apply List.map_congr_left
  intro a _
  by_cases h : (a.id == p2.id) = true
  · have := beq_iff_eq.mp h
    simp [h, this]
  · have h' : a.id ≠ p2.id := by simpa using h
    simp [h']

theorem replaceProduto_id_not_mem {l : List Produto} {p2 : Produto}
    (h : p2.id ∉ l.map Produto.id) : replaceProduto l p2 = l := by
  unfold replaceProduto
  have : ∀ a ∈ l, (if a.id == p2.id then p2 else a) = a := by
    intro a ha
    have : (a.id == p2.id) = false := by
      apply beq_eq_false_iff_ne.mpr
      intro hcontra
      exact h (hcontra ▸ List.mem_map_of_mem Produto.id ha)
    simp [this]
  rw [List.map_congr_left this]
  exact List.map_id' l

theorem replaceProduto_sig {l : List Produto} {p p2 : Produto}
    (hN : (l.map Produto.id).Nodup) (hp : p ∈ l)
    (hid : p2.id = p.id) (hcod : p2.codigo = p.codigo) :
    (replaceProduto l p2).map prodSig = l.map prodSig := by
  induction l with
  | nil => cases hp
  | cons a t ih =>
    have ha : a.id ∉ t.map Produto.id := (List.nodup_cons.mp hN).1
    have hN' := (List.nodup_cons.mp hN).2
    rcases List.mem_cons.mp hp with h | h
    · subst h
      have hb : (p.id == p2.id) = true := by rw [hid]; exact beq_self_eq_true _
      have htail : replaceProduto t p2 = t :=
        replaceProduto_id_not_mem (by rw [hid]; exact ha)
      unfold replaceProduto at htail ⊢
      simp only [List.map_cons, htail]
      simp [hb, prodSig, hid, hcod]
    · have hne : a.id ≠ p.id := by
        intro hcontra
        exact ha (hcontra ▸ List.mem_map_of_mem Produto.id h)
      have hb : (a.id == p2.id) = false := by
        apply beq_eq_false_iff_ne.mpr
        rw [hid]; exact hne
      have hrec := ih hN' h
      unfold replaceProduto at hrec ⊢
      simp only [List.map_cons, hrec]
      simp [hb]

theorem find?_sig_congr {α : Type} (g : Produto → α) (q : α → Bool) {l1 l2 : List Produto}
    (h : l1.map g = l2.map g) :
    Option.map g (l1.find? (fun p => q (g p))) = Option.map g (l2.find? (fun p => q (g p))) := by
  have e1 : (l1.map g).find? q = (l1.find? (q ∘ g)).map g := List.find?_map g l1
  have e2 : (l2.map g).find? q = (l2.find? (q ∘ g)).map g := List.find?_map g l2
  have : (l1.find? (q ∘ g)).map g = (l2.find? (q ∘ g)).map g := by
    rw [← e1, ← e2, h]
  exact this

theorem estoqueOfList_of_mem {l : List Produto} {p : Produto}
    (hN : (l.map Produto.id).Nodup) (hp : p ∈ l) :
    estoqueOfList l p.id = p.estoque := by
  unfold estoqueOfList
  rw [find?_id_eq_of_nodup hN hp]

theorem replaceProduto_find?_other {l : List Produto} {p2 : Produto} {pid : UUID}
    (hne : pid ≠ p2.id) :
    (replaceProduto l p2).find? (fun q => q.id == pid) = l.find? (fun q => q.id == pid) := by
  induction l with
  | nil => rfl
  | cons a t ih =>
    unfold replaceProduto at ih ⊢
    by_cases hb : (a.id == p2.id) = true
    · have haid : a.id = p2.id := beq_iff_eq.mp hb
      have h1 : (p2.id == pid) = false := beq_eq_false_iff_ne.mpr (fun hc => hne hc.symm)
      have h2 : (a.id == pid) = false := by rw [haid]; exact h1
      have hhead : (if (a.id == p2.id) = true then p2 else a) = p2 := by simp [hb]
      simp only [List.map_cons, hhead, List.find?, h1, h2]
      exact ih
    · have hb' : (a.id == p2.id) = false := by simpa using hb
      have hhead : (if (a.id == p2.id) = true then p2 else a) = a := by simp [hb']
      simp only [List.map_cons, hhead]
      by_cases hc : (a.id == pid) = true
      · simp only [List.find?, hc]
      · have hc' : (a.id == pid) = false := by simpa using hc
        simp only [List.find?, hc']
        exact ih

theorem estoqueOfList_replace_other {l : List Produto} {p2 : Produto} {pid : UUID}
    (hne : pid ≠ p2.id) :
    estoqueOfList (replaceProduto l p2) pid = estoqueOfList l pid := by
  unfold estoqueOfList
  rw [replaceProduto_find?_other hne]

theorem estoqueOfList_replace_self {l : List Produto} {p p2 : Produto}
    (hN : (l.map Produto.id).Nodup) (hp : p ∈ l) (hid : p2.id = p.id) :
    estoqueOfList (replaceProduto l p2) p2.id = p2.estoque := by
  have hmem : p2 ∈ replaceProduto l p2 := by
    unfold replaceProduto
    have hb : (p.id == p2.id) = true := by rw [hid]; exact beq_self_eq_true _
    have hfp : (if (p.id == p2.id) = true then p2 else p) = p2 := by simp [hb]
    exact List.mem_map.mpr ⟨p, hp, hfp⟩
  have hN2 : ((replaceProduto l p2).map Produto.id).Nodup := by
    rw [replaceProduto_map_id]; exact hN
  exact estoqueOfList_of_mem hN2 hmem

/-! ### Resolution lemmas -/

theorem resolveById_mem {s : DBState} {pid : Option String} {p : Produto}
    (h : resolveById s pid = some p) : p ∈ s.produtos := by
  unfold resolveById at h
  split at h
  · cases hp : parseUUID (pid.getD "") with
    | some v => rw [hp] at h; exact List.mem_of_find?_eq_some h
    | none => rw [hp] at h; cases h
  · cases h

theorem resolveByCodigo_mem {s : DBState} {pcode : Option String} {p : Produto}
    (h : resolveByCodigo s pcode = some p) : p ∈ s.produtos := by
  unfold resolveByCodigo at h
  split at h
  · exact List.mem_of_find?_eq_some h
  · cases h

theorem resolveProduto_mem {s : DBState} {pid pcode : Option String} {p : Produto}
    (h : resolveProduto s pid pcode = some p) : p ∈ s.produtos := by
  unfold resolveProduto at h
  cases hb : resolveById s pid with
  | some q =>
    rw [hb] at h
    injection h with h'
    subst h'
    exact resolveById_mem hb
  | none =>
    rw [hb] at h
    exact resolveByCodigo_mem h

theorem resolveById_sig {s1 s2 : DBState}
    (h : s1.produtos.map prodSig = s2.produtos.map prodSig) (pid : Option String) :
    Option.map prodSig (resolveById s1 pid) = Option.map prodSig (resolveById s2 pid) := by
  unfold resolveById
  cases ht : truthy pid with
  | false => simp [ht]
  | true =>
    simp only [ht, if_true]
    cases hp : parseUUID (pid.getD "") with
    | some v => exact find?_sig_congr prodSig (fun pr => pr.1 == v) h
    | none => rfl

theorem resolveProduto_sig {s1 s2 : DBState}
    (h : s1.produtos.map prodSig = s2.produtos.map prodSig) (pid pcode : Option String) :
    Option.map prodSig (resolveProduto s1 pid pcode)
      = Option.map prodSig (resolveProduto s2 pid pcode) := by
  have hid := resolveById_sig h pid
  unfold resolveProduto
  cases h1 : resolveById s1 pid with
  | some p1 =>
    cases h2 : resolveById s2 pid with
    | some p2 => rw [h1, h2] at hid; simpa using hid
    | none => rw [h1, h2] at hid; simp at hid
  | none =>
    cases h2 : resolveById s2 pid with
    | some p2 => rw [h1, h2] at hid; simp at hid
    | none =>
      unfold resolveByCodigo
      cases ht : truthy pcode with
      | false => simp [ht]
      | true =>
        simp only [ht, if_true]
        exact find?_sig_congr prodSig (fun pr => pr.2 == pcode.getD "") h

/-! ### Per-record processing lemmas -/

/-- The `produto_nao_encontrado` path: the record is excluded with no side
effects. -/
theorem processRecord_pnf (now : Int) (s : DBState) (item : AbastecimentoIn) (f : Faults)
    (hf1 : f.resolveIdFault = false) (hf2 : f.resolveCodeFault = false)
    (hres : resolveProduto s item.produto_id item.produto_codigo = none) :
    processRecord now s item f =
      { state := s, insertedInc := 0, accepted := [], conflicts := [pnfConflict item],
        outcome := Outcome.conflict (pnfConflict item) } := by
  unfold processRecord
  simp [hf1, hf2, hres]

/-- The duplicate path: no insertion, no stock mutation, token accepted. -/
theorem processRecord_dup (now : Int) (s : DBState) (item : AbastecimentoIn) (f : Faults)
    (p : Produto)
    (hf1 : f.resolveIdFault = false) (hf2 : f.resolveCodeFault = false)
    (hres : resolveProduto s item.produto_id item.produto_codigo = some p)
    (hdup : isDupOf s item p f = true) :
    processRecord now s item f =
      { state := s, insertedInc := 0, accepted := acceptedOf item,
        conflicts := [], outcome := Outcome.duplicate } := by
  unfold processRecord
  simp [hf1, hf2, hres, hdup]

/-- For a well-formed ledger the back-fill update touches only the freshly
inserted row. -/
theorem backfill_map (l : List Abastecimento) (row : Abastecimento) (ts : Int)
    (h : ∀ a ∈ l, a.id ≠ row.id) :
    (l ++ [row]).map (fun a => if a.id == row.id then { a with created_at := ts } else a)
      = l ++ [{ row with created_at := ts }] := by
  rw [List.map_append]
  congr 1
  · have hall : ∀ a ∈ l,
        (if (a.id == row.id) = true then { a with created_at := ts } else a) = a := by
      intro a ha
      have : (a.id == row.id) = false := beq_eq_false_iff_ne.mpr (h a ha)
      simp [this]
    rw [List.map_congr_left hall]
    exact List.map_id' l
  · simp

/-- The fresh-insert path: the three effects (new ledger row with the claimed
or server timestamp, stock increment, freshness refresh) in one step. -/
theorem processRecord_insert (now : Int) (s : DBState) (item : AbastecimentoIn) (f : Faults)
    (p : Produto)
    (hf1 : f.resolveIdFault = false) (hf2 : f.resolveCodeFault = false)
    (hf4 : f.flushFault = false) (hf5 : f.backfillFault = false)
    (hres : resolveProduto s item.produto_id item.produto_codigo = some p)
    (hdup : isDupOf s item p f = false)
    (hfresh : ∀ a ∈ s.ledger, a.id < s.nextId) :
    processRecord now s item f =
      { state := { produtos := replaceProduto s.produtos (prodBump p item.quantidade now),
                   ledger := s.ledger ++ [{ mkRow now s item p with created_at := item.created_at.getD now }],
                   nextId := s.nextId + 1 },
        insertedInc := 1, accepted := acceptedOf item, conflicts := [],
        outcome := Outcome.inserted p.id item.quantidade } := by
  unfold processRecord
  cases hc : item.created_at with
  | none =>
    simp [hf1, hf2, hres, hdup, hf4, hc, updateProduto, mkRow]
  | some ts =>
    have hmap := backfill_map s.ledger (mkRow now s item p) ts
      (by intro a ha; have := hfresh a ha; simp [mkRow]; omega)
    simp [hf1, hf2, hres, hdup, hf4, hf5, hc, updateProduto, hmap]
    have hall : ∀ a ∈ s.ledger,
        (if a.id = (mkRow now s item p).id then { a with created_at := ts } else a) = a := by
      intro a ha
      have hne : a.id ≠ (mkRow now s item p).id := by
        have := hfresh a ha; simp [mkRow]; omega
      simp [hne]
    rw [List.map_congr_left hall]
    exact List.map_id' s.ledger

/-- Under fault-free processing each record lands in exactly one of the three
paths: not-found conflict, duplicate skip, or fresh insert. -/
theorem processRecord_noFaults_shape (now : Int) (s : DBState) (item : AbastecimentoIn)
    (hfresh : ∀ a ∈ s.ledger, a.id < s.nextId) :
    (resolveProduto s item.produto_id item.produto_codigo = none ∧
      processRecord now s item noFaults =
        { state := s, insertedInc := 0, accepted := [], conflicts := [pnfConflict item],
          outcome := Outcome.conflict (pnfConflict item) }) ∨
    (∃ p, resolveProduto s item.produto_id item.produto_codigo = some p ∧
      isDupOf s item p noFaults = true ∧
      processRecord now s item noFaults =
        { state := s, insertedInc := 0, accepted := acceptedOf item,
          conflicts := [], outcome := Outcome.duplicate }) ∨
    (∃ p, resolveProduto s item.produto_id item.produto_codigo = some p ∧
      isDupOf s item p noFaults = false ∧
      processRecord now s item noFaults =
        { state := { produtos := replaceProduto s.produtos (prodBump p item.quantidade now),
                     ledger := s.ledger ++ [{ mkRow now s item p with created_at := item.created_at.getD now }],
                     nextId := s.nextId + 1 },
          insertedInc := 1, accepted := acceptedOf item, conflicts := [],
          outcome := Outcome.inserted p.id item.quantidade }) := by
  cases hres : resolveProduto s item.produto_id item.produto_codigo with
  | none => exact Or.inl ⟨rfl, processRecord_pnf now s item noFaults rfl rfl hres⟩
  | some p =>
    cases hdup : isDupOf s item p noFaults with
    | true =>
      exact Or.inr (Or.inl ⟨p, rfl, hdup,
        processRecord_dup now s item noFaults p rfl rfl hres hdup⟩)
    | false =>
      exact Or.inr (Or.inr ⟨p, rfl, hdup,
        processRecord_insert now s item noFaults p rfl rfl rfl rfl hres hdup hfresh⟩)

/-- Fault-free processing of one record preserves catalog-id uniqueness and
ledger-id freshness, and moves each product's on-hand quantity by exactly the
outcome's contribution. -/
theorem processRecord_invariants (now : Int) (s : DBState) (item : AbastecimentoIn)
    (hN : (s.produtos.map Produto.id).Nodup)
    (hfresh : ∀ a ∈ s.ledger, a.id < s.nextId) :
    (((processRecord now s item noFaults).state.produtos.map Produto.id).Nodup ∧
     (∀ a ∈ (processRecord now s item noFaults).state.ledger,
        a.id < (processRecord now s item noFaults).state.nextId) ∧
     ∀ pid : UUID,
       estoqueOf (processRecord now s item noFaults).state pid
         = estoqueOf s pid + contribution (processRecord now s item noFaults).outcome pid) := by
  rcases processRecord_noFaults_shape now s item hfresh with
    ⟨hres, heq⟩ | ⟨p, hres, hdup, heq⟩ | ⟨p, hres, hdup, heq⟩
  · rw [heq]
    exact ⟨hN, hfresh, fun pid => by simp [contribution]⟩
  · rw [heq]
    exact ⟨hN, hfresh, fun pid => by simp [contribution]⟩
  · rw [heq]
    have hmem : p ∈ s.produtos := resolveProduto_mem hres
    refine ⟨?_, ?_, ?_⟩
    · simpa [replaceProduto_map_id] using hN
    · intro a ha
      simp only [List.mem_append, List.mem_singleton] at ha
      rcases ha with ha | ha
      · have := hfresh a ha; simp; omega
      · subst ha; simp [mkRow]
    · intro pid
      by_cases hp : p.id = pid
      · subst hp
        have h1 : estoqueOfList (replaceProduto s.produtos (prodBump p item.quantidade now))
            (prodBump p item.quantidade now).id = (prodBump p item.quantidade now).estoque :=
          estoqueOfList_replace_self hN hmem rfl
        have h2 : estoqueOfList s.produtos p.id = p.estoque := estoqueOfList_of_mem hN hmem
        simp only [estoqueOf] at *
        rw [show (prodBump p item.quantidade now).id = p.id from rfl] at h1
        rw [h1, h2]
        simp [prodBump, contribution]
      · have h1 : estoqueOfList (replaceProduto s.produtos (prodBump p item.quantidade now)) pid
            = estoqueOfList s.produtos pid :=
          estoqueOfList_replace_other (by simpa [prodBump] using (Ne.symm hp))
        simp only [estoqueOf] at *
        rw [h1]
        have : (p.id == pid) = false := beq_eq_false_iff_ne.mpr hp
        simp [contribution, this]

/-- Unfolding equation of `insertedSum` on a cons cell. -/
theorem insertedSum_cons (o : Outcome) (outs : List Outcome) (pid : UUID) :
    insertedSum (o :: outs) pid = contribution o pid + insertedSum outs pid := rfl

/-- Fault-free batch processing: the session's on-hand quantity of every
product moves by exactly the sum of the accepted fresh insertions against
it. -/
theorem processItems_estoque (now : Int) (items : List AbastecimentoIn) :
    ∀ (s : DBState), (s.produtos.map Produto.id).Nodup →
      (∀ a ∈ s.ledger, a.id < s.nextId) →
      ∀ pid : UUID,
        estoqueOf (processItems now (items.map (fun i => (i, noFaults))) s).state pid
          = estoqueOf s pid
            + insertedSum (processItems now (items.map (fun i => (i, noFaults))) s).outcomes pid := by
  induction items with
  | nil =>
    intro s hN hf pid
    simp [processItems, insertedSum]
  | cons item rest ih =>
    intro s hN hf pid
    obtain ⟨hN', hf', hest⟩ := processRecord_invariants now s item hN hf
    simp only [List.map_cons, processItems]
    rw [insertedSum_cons, ih _ hN' hf' pid, hest pid]
    ring

/-- Whatever the faults, a record either counts one fresh insertion or its
outcome is not an insertion. -/
theorem processRecord_inserted_or_not (now : Int) (s : DBState) (item : AbastecimentoIn)
    (f : Faults) :
    (processRecord now s item f).insertedInc = 1 ∨
    ∀ pid q, (processRecord now s item f).outcome ≠ Outcome.inserted pid q := by
  unfold processRecord
  repeat' split
  all_goals first
    | (left; rfl)
    | (right; intro pid q; simp [mkErroInterno])

/-- A record that does not count an insertion contributes nothing to any
product's stock. -/
theorem contribution_of_insertedInc_zero (now : Int) (s : DBState) (item : AbastecimentoIn)
    (f : Faults) (pid : UUID)
    (h : (processRecord now s item f).insertedInc = 0) :
    contribution (processRecord now s item f).outcome pid = 0 := by
  rcases processRecord_inserted_or_not now s item f with h1 | h1
  · rw [h1] at h; cases h
  · cases ho : (processRecord now s item f).outcome with
    | inserted p q => exact absurd ho (h1 p q)
    | duplicate => simp [contribution]
    | conflict c => simp [contribution]

/-- A batch reporting zero insertions has no insertion outcome, so the summed
stock delta of its outcomes is zero. -/
theorem processItems_inserted_zero_sum (now : Int) (items : List (AbastecimentoIn × Faults)) :
    ∀ (s : DBState) (pid : UUID), (processItems now items s).inserted = 0 →
      insertedSum (processItems now items s).outcomes pid = 0 := by
  induction items with
  | nil => intro s pid _; simp [processItems, insertedSum]
  | cons itf rest ih =>
    intro s pid h
    obtain ⟨item, f⟩ := itf
    simp only [processItems] at h ⊢
    have h1 : (processRecord now s item f).insertedInc = 0 := by omega
    have h2 : (processItems now rest (processRecord now s item f).state).inserted = 0 := by omega
    rw [insertedSum_cons, contribution_of_insertedInc_zero now s item f pid h1,
      ih _ pid h2]
    simp

/-- Every record of the batch is processed: one outcome per submitted
record. -/
theorem processItems_length (now : Int) (items : List (AbastecimentoIn × Faults)) :
    ∀ s, (processItems now items s).outcomes.length = items.length := by
  induction items with
  | nil => intro s; rfl
  | cons itf rest ih =>
    intro s
    obtain ⟨item, f⟩ := itf
    simp [processItems, ih]

/-- Every conflict entry a record can produce is either the
`produto_nao_encontrado` dict built from its submitted product references or
an `erro_interno` dict carrying its correlation token. -/
theorem processRecord_conflicts_shape (now : Int) (s : DBState) (item : AbastecimentoIn)
    (f : Faults) :
    ∀ c ∈ (processRecord now s item f).conflicts,
      c = Conflict.produtoNaoEncontrado item.produto_id item.produto_codigo ∨
      ∃ m, c = Conflict.erroInterno m item.local_id := by
  unfold processRecord
  repeat' split
  all_goals intro c hc
  all_goals simp [mkErroInterno, pnfConflict] at hc
  all_goals first
    | (left; exact hc)
    | (right; exact ⟨_, hc⟩)

/-! ### Claim theorems -/

/-- C3: the storage transaction is committed iff at least one fresh insertion
happened; with zero insertions (even when duplicates were detected or every
record conflicted) the transaction is rolled back, so such a batch leaves the
durable state untouched -- the commit/rollback decision is taken once for the
whole batch, never for part of it. -/
theorem spec_commit_iff_inserted (now : Int) (db : DBState)
    (items : List (AbastecimentoIn × Faults)) :
    ((bulk_create_abastecimentos now db items).committed = true ↔
      (bulk_create_abastecimentos now db items).inserted ≠ 0) ∧
    ((bulk_create_abastecimentos now db items).inserted = 0 →
      (bulk_create_abastecimentos now db items).durable = db) := by
  unfold bulk_create_abastecimentos
  by_cases h : (processItems now items db).inserted ≠ 0
  · simp [h]
  · simp only [h, if_false, if_neg h]
    push_neg at h
    simp [h]

/-- Witness for C3 at the empty batch: zero insertions, durable state kept. -/
theorem spec_commit_iff_inserted_witness :
    ((bulk_create_abastecimentos 0 { produtos := [], ledger := [], nextId := 0 } []).committed = true ↔
      (bulk_create_abastecimentos 0 { produtos := [], ledger := [], nextId := 0 } []).inserted ≠ 0) ∧
    (bulk_create_abastecimentos 0 { produtos := [], ledger := [], nextId := 0 } []).durable
      = { produtos := [], ledger := [], nextId := 0 } :=
  ⟨(spec_commit_iff_inserted 0 { produtos := [], ledger := [], nextId := 0 } []).1,
   (spec_commit_iff_inserted 0 { produtos := [], ledger := [], nextId := 0 } []).2 (by decide)⟩

/-- C9: a freshly inserted record stores the computed total
quantity × unit cost, and stores total-cost equal to the supplied total-cost
when present, else quantity × unit cost; in particular a record omitting
total-cost stores total-cost = quantity × unit cost. -/
theorem spec_total_default (now : Int) (s : DBState) (item : AbastecimentoIn) (p : Produto)
    (hres : resolveProduto s item.produto_id item.produto_codigo = some p)
    (hdup : isDupOf s item p noFaults = false)
    (hfresh : ∀ a ∈ s.ledger, a.id < s.nextId) :
    ∃ row : Abastecimento,
      (processRecord now s item noFaults).state.ledger = s.ledger ++ [row] ∧
      row.total = item.quantidade * item.custo_unitario ∧
      row.total_custo = item.total_custo.getD (item.quantidade * item.custo_unitario) ∧
      (item.total_custo = none → row.total_custo = item.quantidade * item.custo_unitario) := by
  refine ⟨{ mkRow now s item p with created_at := item.created_at.getD now }, ?_, rfl, rfl, ?_⟩
  · rw [processRecord_insert now s item noFaults p rfl rfl rfl rfl hres hdup hfresh]
  · intro h
    simp [mkRow, h]

/-- Concrete catalog row for the C9 witness. -/
def prodW9 : Produto := { id := 1, codigo := "SKU1", estoque := 0, updated_at := 0 }

/-- Concrete storage state for the C9 witness. -/
def dbW9 : DBState := { produtos := [prodW9], ledger := [], nextId := 0 }

/-- Concrete record omitting total-cost for the C9 witness. -/
def itemW9 : AbastecimentoIn :=
  { local_id := none, produto_id := none, produto_codigo := some "SKU1",
    usuario_id := none, quantidade := 10, custo_unitario := 3, total_custo := none,
    observacao := none, created_at := none }

/-- Witness for C9: the stored row of a record omitting total-cost has
total = total-cost = 10 × 3. -/
theorem spec_total_default_witness :
    (processRecord 100 dbW9 itemW9 noFaults).state.ledger.map
      (fun row => (row.total, row.total_custo)) = [(30, 30)] := by
  obtain ⟨row, h1, h2, h3, h4⟩ :=
    spec_total_default 100 dbW9 itemW9 prodW9 (by decide) (by decide) (by decide)
  rw [h1]
  have h5 : row.total_custo = 10 * 3 := h4 rfl
  have h6 : row.total = 10 * 3 := h2
  simp [dbW9, h5, h6]
  norm_num

/-- C10: a record whose actor identifier is present but not a well-formed
UUID is processed exactly as if no actor had been supplied: the parsed actor
reference is `None` (so the inserted row's actor is null and the dedup key
uses the no-actor value) and the whole per-record processing coincides with
that of the same record without an actor -- no exception, no conflict. -/
theorem spec_malformed_usuario_discarded (now : Int) (s : DBState) (item : AbastecimentoIn)
    (f : Faults) (u : String)
    (hu : item.usuario_id = some u) (hbad : parseUUID u = none) :
    parseUsuario item.usuario_id = none ∧
    processRecord now s item f = processRecord now s { item with usuario_id := none } f := by
  have h1 : parseUsuario item.usuario_id = none := by
    rw [hu]
    unfold parseUsuario
    by_cases he : u = ""
    · subst he; simp [truthy]
    · simp [truthy, he, hbad]
  refine ⟨h1, ?_⟩
  unfold processRecord isDupOf mkRow mkErroInterno pnfConflict acceptedOf
  rw [h1]
  simp [parseUsuario, truthy]

/-- Concrete catalog row for the C10 witness. -/
def prodW10 : Produto := { id := 2, codigo := "C2", estoque := 1, updated_at := 0 }

/-- Concrete storage state for the C10 witness. -/
def dbW10 : DBState := { produtos := [prodW10], ledger := [], nextId := 0 }

/-- Concrete record with the malformed actor id `nope` for the C10 witness. -/
def itemW10 : AbastecimentoIn :=
  { local_id := some "w10", produto_id := none, produto_codigo := some "C2",
    usuario_id := some "nope", quantidade := 1, custo_unitario := 1, total_custo := none,
    observacao := none, created_at := none }

/-- Witness for C10 at the malformed actor id `nope`. -/
theorem spec_malformed_usuario_discarded_witness :
    parseUsuario itemW10.usuario_id = none ∧
    processRecord 7 dbW10 itemW10 noFaults
      = processRecord 7 dbW10 { itemW10 with usuario_id := none } noFaults :=
  spec_malformed_usuario_discarded 7 dbW10 itemW10 noFaults "nope" rfl (by decide)

/-- The fault profile where only the dedup lookup errors. -/
def dupLookupFault : Faults :=
  { resolveIdFault := false, resolveCodeFault := false,
    dupFault := true, flushFault := false, backfillFault := false }

/-- C8: when the duplicate lookup itself fails, a record carrying a claimed
original timestamp is not aborted: it falls through to a normal insertion
(one new ledger row, insertion counted, token accepted) and produces neither
a conflict nor a skip -- even when a matching duplicate row exists. -/
theorem spec_dup_lookup_failure_falls_through (now : Int) (s : DBState)
    (item : AbastecimentoIn) (p : Produto) (ts : Int)
    (hts : item.created_at = some ts)
    (hres : resolveProduto s item.produto_id item.produto_codigo = some p)
    (hfresh : ∀ a ∈ s.ledger, a.id < s.nextId) :
    (processRecord now s item dupLookupFault).insertedInc = 1 ∧
    (processRecord now s item dupLookupFault).conflicts = [] ∧
    (processRecord now s item dupLookupFault).state.ledger.length = s.ledger.length + 1 ∧
    (processRecord now s item dupLookupFault).accepted = acceptedOf item := by
  have hdup : isDupOf s item p dupLookupFault = false := by
    unfold isDupOf
    rw [hts]
    simp [dupLookupFault]
  rw [processRecord_insert now s item dupLookupFault p rfl rfl rfl rfl hres hdup hfresh]
  simp

/-- Catalog row for the C8 witness. -/
def prodW8 : Produto := { id := 3, codigo := "C3", estoque := 5, updated_at := 0 }

/-- Ledger row that is an exact composite-key duplicate of the C8 witness
record. -/
def rowW8 : Abastecimento :=
  { id := 0, produto_id := 3, usuario_id := none, quantidade := 4, custo_unitario := 2,
    total := 8, total_custo := 8, observacao := none, created_at := 60 }

/-- Storage state for the C8 witness, already holding the duplicate. -/
def dbW8 : DBState := { produtos := [prodW8], ledger := [rowW8], nextId := 1 }

/-- Record for the C8 witness, matching `rowW8` exactly. -/
def itemW8 : AbastecimentoIn :=
  { local_id := some "w8", produto_id := none, produto_codigo := some "C3",
    usuario_id := none, quantidade := 4, custo_unitario := 2, total_custo := none,
    observacao := none, created_at := some 60 }

/-- Witness for C8: with the dedup lookup faulting, the record is inserted
although an exact duplicate is already in the ledger. -/
theorem spec_dup_lookup_failure_falls_through_witness :
    (processRecord 100 dbW8 itemW8 dupLookupFault).insertedInc = 1 ∧
    (processRecord 100 dbW8 itemW8 dupLookupFault).conflicts = [] ∧
    (processRecord 100 dbW8 itemW8 dupLookupFault).state.ledger.length = dbW8.ledger.length + 1 ∧
    (processRecord 100 dbW8 itemW8 dupLookupFault).accepted = acceptedOf itemW8 :=
  spec_dup_lookup_failure_falls_through 100 dbW8 itemW8 prodW8 60 rfl (by decide) (by decide)

/-- C6: product resolution tries the catalog identifier first and falls back
to the code lookup when the identifier is absent (falsy) or malformed,
without raising; a record that resolves by neither path yields exactly the
`produto_nao_encontrado` conflict, contributes no side effect to the session
state, and the remaining records of the batch are processed as if it had not
been there. -/
theorem spec_resolution_fallback_and_not_found (now : Int) (s : DBState)
    (item : AbastecimentoIn) (rest : List (AbastecimentoIn × Faults)) :
    ((truthy item.produto_id = false ∨ parseUUID (item.produto_id.getD "") = none) →
      resolveProduto s item.produto_id item.produto_codigo
        = resolveByCodigo s item.produto_codigo) ∧
    (resolveProduto s item.produto_id item.produto_codigo = none →
      processItems now ((item, noFaults) :: rest) s =
        { inserted := (processItems now rest s).inserted,
          accepted := (processItems now rest s).accepted,
          conflicts := Conflict.produtoNaoEncontrado item.produto_id item.produto_codigo
            :: (processItems now rest s).conflicts,
          outcomes := Outcome.conflict
              (Conflict.produtoNaoEncontrado item.produto_id item.produto_codigo)
            :: (processItems now rest s).outcomes,
          state := (processItems now rest s).state }) := by
  constructor
  · intro h
    unfold resolveProduto resolveById
    rcases h with h | h
    · simp [h]
    · cases ht : truthy item.produto_id
      · simp
      · simp [h]
  · intro hres
    have hrec := processRecord_pnf now s item noFaults rfl rfl hres
    simp [processItems, hrec, pnfConflict]

/-- Catalog row for the C6 witness. -/
def prodW6 : Produto := { id := 4, codigo := "C4", estoque := 0, updated_at := 0 }

/-- Storage state for the C6 witness. -/
def dbW6 : DBState := { produtos := [prodW6], ledger := [], nextId := 0 }

/-- Record with a malformed identifier and a resolvable code. -/
def itemW6 : AbastecimentoIn :=
  { local_id := some "w6", produto_id := some "not-a-uuid", produto_codigo := some "C4",
    usuario_id := none, quantidade := 1, custo_unitario := 1, total_custo := none,
    observacao := none, created_at := none }

/-- Record resolving by neither identifier nor code. -/
def itemW6b : AbastecimentoIn :=
  { local_id := some "w6b", produto_id := some "not-a-uuid", produto_codigo := some "NOPE",
    usuario_id := none, quantidade := 1, custo_unitario := 1, total_custo := none,
    observacao := none, created_at := none }

/-- Witness for C6: malformed id falls back to the code lookup, and an
unresolvable record turns into exactly one not-found conflict with no state
change. -/
theorem spec_resolution_fallback_and_not_found_witness :
    resolveProduto dbW6 itemW6.produto_id itemW6.produto_codigo
      = resolveByCodigo dbW6 itemW6.produto_codigo ∧
    processItems 5 ((itemW6b, noFaults) :: []) dbW6 =
      { inserted := (processItems 5 [] dbW6).inserted,
        accepted := (processItems 5 [] dbW6).accepted,
        conflicts := Conflict.produtoNaoEncontrado itemW6b.produto_id itemW6b.produto_codigo
          :: (processItems 5 [] dbW6).conflicts,
        outcomes := Outcome.conflict
            (Conflict.produtoNaoEncontrado itemW6b.produto_id itemW6b.produto_codigo)
          :: (processItems 5 [] dbW6).outcomes,
        state := (processItems 5 [] dbW6).state } :=
  ⟨(spec_resolution_fallback_and_not_found 5 dbW6 itemW6 []).1 (Or.inr (by decide)),
   (spec_resolution_fallback_and_not_found 5 dbW6 itemW6b []).2 (by decide)⟩

/-- C7 (amended): every record of the batch is processed (one outcome each;
a record's failure never stops its successors), and every conflict entry a
record produces carries a reason drawn from
{produto_nao_encontrado, erro_interno}; an erro_interno entry carries the
diagnostic message and the record's correlation token, while a
produto_nao_encontrado entry carries the submitted product references (and,
as the counterexample shows, no token and no message). -/
theorem spec_conflict_shape_and_continuation (now : Int) (s : DBState)
    (item : AbastecimentoIn) (f : Faults) (items : List (AbastecimentoIn × Faults)) :
    ((processItems now items s).outcomes.length = items.length) ∧
    ∀ c ∈ (processRecord now s item f).conflicts,
      c = Conflict.produtoNaoEncontrado item.produto_id item.produto_codigo ∨
      ∃ m, c = Conflict.erroInterno m item.local_id :=
  ⟨processItems_length now items s, processRecord_conflicts_shape now s item f⟩

/-- Unresolvable record carrying a correlation token, for the C7
counterexample. -/
def itemW7 : AbastecimentoIn :=
  { local_id := some "L1", produto_id := some "zzz", produto_codigo := some "NOPE",
    usuario_id := none, quantidade := 1, custo_unitario := 1, total_custo := none,
    observacao := none, created_at := none }

/-- Empty catalog for the C7 counterexample. -/
def dbW7 : DBState := { produtos := [], ledger := [], nextId := 0 }

/-- Counterexample to C7 as stated: the record carries the correlation token
`L1`, yet its `produto_nao_encontrado` conflict entry carries no correlation
token and no diagnostic message. -/
theorem conflict_token_missing_counterexample :
    itemW7.local_id = some "L1" ∧
    (bulk_create_abastecimentos 0 dbW7 [(itemW7, noFaults)]).conflicts
      = [Conflict.produtoNaoEncontrado (some "zzz") (some "NOPE")] ∧
    (bulk_create_abastecimentos 0 dbW7 [(itemW7, noFaults)]).conflicts.map conflictLocalId
      = [none] ∧
    (bulk_create_abastecimentos 0 dbW7 [(itemW7, noFaults)]).conflicts.map conflictMessage
      = [none] := by decide

/-- Witness for C7's amended theorem at a concrete unresolvable record. -/
theorem spec_conflict_shape_witness :
    (processItems 0 [(itemW7, noFaults)] dbW7).outcomes.length = 1 ∧
    Conflict.produtoNaoEncontrado (some "zzz") (some "NOPE")
      = Conflict.produtoNaoEncontrado itemW7.produto_id itemW7.produto_codigo := by
  refine ⟨(spec_conflict_shape_and_continuation 0 dbW7 itemW7 noFaults [(itemW7, noFaults)]).1, ?_⟩
  have h := (spec_conflict_shape_and_continuation 0 dbW7 itemW7 noFaults []).2
    (Conflict.produtoNaoEncontrado (some "zzz") (some "NOPE")) (by decide)
  rcases h with h | h
  · exact h
  · obtain ⟨m, hm⟩ := h
    exact Conflict.noConfusion hm

/-- Product and batch exhibiting the C4 anomaly: record 1 faults at `flush`
after its in-session stock increment, record 2 succeeds and triggers the
commit. -/
def prodC4 : Produto := { id := 1, codigo := "P1", estoque := 0, updated_at := 0 }

/-- Initial storage state for the C4 failing input. -/
def dbC4 : DBState := { produtos := [prodC4], ledger := [], nextId := 0 }

/-- First record of the C4 failing input (its `flush` faults). -/
def recC4a : AbastecimentoIn :=
  { local_id := some "a", produto_id := none, produto_codigo := some "P1",
    usuario_id := none, quantidade := 5, custo_unitario := 2, total_custo := none,
    observacao := none, created_at := none }

/-- Second record of the C4 failing input (processed normally). -/
def recC4b : AbastecimentoIn :=
  { local_id := some "b", produto_id := none, produto_codigo := some "P1",
    usuario_id := none, quantidade := 3, custo_unitario := 2, total_custo := none,
    observacao := none, created_at := none }

/-- The fault profile where only the `flush` of the new row errors. -/
def flushFaultOnly : Faults :=
  { resolveIdFault := false, resolveCodeFault := false,
    dupFault := false, flushFault := true, backfillFault := false }

/-- C4 failing input, evaluated: record 1's flush faults and the record is
reported as an `erro_interno` conflict, yet its stock increment (+5) stays in
the session; record 2 (+3) succeeds, the batch commits, and the committed
state carries on-hand 8 for the product while holding only record 2's ledger
row -- the failed record's stock effect is committed without its ledger row,
contradicting the claim that a failed record leaves no partial state. -/
theorem flush_fault_commits_stock_without_row :
    (bulk_create_abastecimentos 100 dbC4 [(recC4a, flushFaultOnly), (recC4b, noFaults)]).committed
      = true ∧
    (bulk_create_abastecimentos 100 dbC4 [(recC4a, flushFaultOnly), (recC4b, noFaults)]).conflicts
      = [Conflict.erroInterno "erro_db_flush" (some "a")] ∧
    (bulk_create_abastecimentos 100 dbC4 [(recC4a, flushFaultOnly), (recC4b, noFaults)]).durable.ledger.map
        Abastecimento.quantidade = [3] ∧
    estoqueOf (bulk_create_abastecimentos 100 dbC4 [(recC4a, flushFaultOnly), (recC4b, noFaults)]).durable 1
      = 8 := by
  refine ⟨by decide, by decide, by decide, ?_⟩
  norm_num [bulk_create_abastecimentos, processItems, processRecord, resolveProduto,
    resolveById, resolveByCodigo, truthy, parseUsuario, isDupOf, mkErroInterno, updateProduto,
    replaceProduto, prodBump, mkRow, acceptedOf, estoqueOf, estoqueOfList, List.find?,
    dbC4, prodC4, recC4a, recC4b, flushFaultOnly, noFaults]

/-- C5: a record carrying no claimed original timestamp skips duplicate
detection entirely and is always treated as new -- it is inserted whatever
rows already exist -- and a batch of two records identical in every field,
both lacking a timestamp, inserts both (no false-positive dedup). -/
theorem spec_no_timestamp_always_new (now : Int) (s : DBState) (item : AbastecimentoIn)
    (p : Produto) (db : DBState) (r : AbastecimentoIn) (q : Produto)
    (hts : item.created_at = none)
    (hres : resolveProduto s item.produto_id item.produto_codigo = some p)
    (hfresh : ∀ a ∈ s.ledger, a.id < s.nextId)
    (hN : (db.produtos.map Produto.id).Nodup)
    (hts2 : r.created_at = none)
    (hres2 : resolveProduto db r.produto_id r.produto_codigo = some q)
    (hfresh2 : ∀ a ∈ db.ledger, a.id < db.nextId) :
    ((processRecord now s item noFaults).insertedInc = 1 ∧
     (processRecord now s item noFaults).state.ledger = s.ledger ++ [mkRow now s item p] ∧
     (processRecord now s item noFaults).conflicts = []) ∧
    ((bulk_create_abastecimentos now db [(r, noFaults), (r, noFaults)]).inserted = 2 ∧
     (bulk_create_abastecimentos now db [(r, noFaults), (r, noFaults)]).durable.ledger.length
       = db.ledger.length + 2) := by
  have hdupOf : ∀ (s' : DBState) (it : AbastecimentoIn) (p' : Produto),
      it.created_at = none → isDupOf s' it p' noFaults = false := by
    intro s' it p' h
    unfold isDupOf
    rw [h]
  constructor
  · have h1 := processRecord_insert now s item noFaults p rfl rfl rfl rfl hres
      (hdupOf s item p hts) hfresh
    rw [h1]
    refine ⟨rfl, ?_, rfl⟩
    simp [hts, mkRow]
  · have h2 := processRecord_insert now db r noFaults q rfl rfl rfl rfl hres2
      (hdupOf db r q hts2) hfresh2
    have hsig : (processRecord now db r noFaults).state.produtos.map prodSig
        = db.produtos.map prodSig := by
      rw [h2]
      exact replaceProduto_sig hN (resolveProduto_mem hres2) rfl rfl
    have hopt := resolveProduto_sig hsig r.produto_id r.produto_codigo
    rw [hres2] at hopt
    cases hq2 : resolveProduto (processRecord now db r noFaults).state
        r.produto_id r.produto_codigo with
    | none => rw [hq2] at hopt; simp at hopt
    | some q2 =>
      have hfresh1 : ∀ a ∈ (processRecord now db r noFaults).state.ledger,
          a.id < (processRecord now db r noFaults).state.nextId := by
        rw [h2]
        intro a ha
        simp only [List.mem_append, List.mem_singleton] at ha
        rcases ha with ha | ha
        · have := hfresh2 a ha; simp; omega
        · subst ha; simp [mkRow]
      have h3 := processRecord_insert now (processRecord now db r noFaults).state r noFaults q2
        rfl rfl rfl rfl hq2 (hdupOf _ r q2 hts2) hfresh1
      constructor
      · unfold bulk_create_abastecimentos
        simp only [processItems]
        rw [h3, h2]
        simp
      · unfold bulk_create_abastecimentos
        simp only [processItems]
        rw [h3, h2]
        simp

/-- Catalog row for the C5 witness. -/
def prodW5 : Produto := { id := 5, codigo := "C5", estoque := 2, updated_at := 0 }

/-- Storage state for the C5 witness. -/
def dbW5 : DBState := { produtos := [prodW5], ledger := [], nextId := 0 }

/-- Record without a claimed timestamp for the C5 witness. -/
def itemW5 : AbastecimentoIn :=
  { local_id := some "w5", produto_id := none, produto_codigo := some "C5",
    usuario_id := none, quantidade := 2, custo_unitario := 3, total_custo := none,
    observacao := none, created_at := none }

/-- Witness for C5: the identical timestamp-less record submitted twice in one
batch is inserted twice. -/
theorem spec_no_timestamp_always_new_witness :
    ((processRecord 100 dbW5 itemW5 noFaults).insertedInc = 1 ∧
     (processRecord 100 dbW5 itemW5 noFaults).state.ledger
       = dbW5.ledger ++ [mkRow 100 dbW5 itemW5 prodW5] ∧
     (processRecord 100 dbW5 itemW5 noFaults).conflicts = []) ∧
    ((bulk_create_abastecimentos 100 dbW5 [(itemW5, noFaults), (itemW5, noFaults)]).inserted = 2 ∧
     (bulk_create_abastecimentos 100 dbW5 [(itemW5, noFaults), (itemW5, noFaults)]).durable.ledger.length
       = dbW5.ledger.length + 2) :=
  spec_no_timestamp_always_new 100 dbW5 itemW5 prodW5 dbW5 itemW5 prodW5 rfl (by decide)
    (by decide) (by decide) rfl (by decide) (by decide)

/-- C2: against a well-formed store (unique product ids, fresh next row id)
and fault-free storage, the durable on-hand quantity of every product after
the batch decision equals its initial value plus the sum of the quantities of
the batch's accepted fresh insertions against it; duplicate skips and
conflicts contribute zero. -/
theorem spec_stock_conservation (now : Int) (db : DBState) (items : List AbastecimentoIn)
    (pid : UUID)
    (hN : (db.produtos.map Produto.id).Nodup)
    (hfresh : ∀ a ∈ db.ledger, a.id < db.nextId) :
    estoqueOf (bulk_create_abastecimentos now db (items.map (fun i => (i, noFaults)))).durable pid
      = estoqueOf db pid
        + insertedSum
            (bulk_create_abastecimentos now db (items.map (fun i => (i, noFaults)))).outcomes pid := by
  unfold bulk_create_abastecimentos
  by_cases h : (processItems now (items.map (fun i => (i, noFaults))) db).inserted ≠ 0
  · rw [if_pos h]
    exact processItems_estoque now items db hN hfresh pid
  · rw [if_neg h]
    push_neg at h
    rw [processItems_inserted_zero_sum now (items.map (fun i => (i, noFaults))) db pid h]
    simp

/-- Catalog row for the C2 witness. -/
def prodW2 : Produto := { id := 6, codigo := "C6", estoque := 1, updated_at := 0 }

/-- Storage state for the C2 witness. -/
def dbW2 : DBState := { produtos := [prodW2], ledger := [], nextId := 0 }

/-- Fresh record against the C2 witness product. -/
def itemW2a : AbastecimentoIn :=
  { local_id := some "w2a", produto_id := none, produto_codigo := some "C6",
    usuario_id := none, quantidade := 4, custo_unitario := 1, total_custo := none,
    observacao := none, created_at := none }

/-- Conflicting record (unresolvable product) for the C2 witness. -/
def itemW2b : AbastecimentoIn :=
  { local_id := some "w2b", produto_id := none, produto_codigo := some "MISSING",
    usuario_id := none, quantidade := 9, custo_unitario := 1, total_custo := none,
    observacao := none, created_at := none }

/-- Witness for C2 at a batch of one accepted and one conflicting record. -/
theorem spec_stock_conservation_witness :
    estoqueOf (bulk_create_abastecimentos 100 dbW2
        ([itemW2a, itemW2b].map (fun i => (i, noFaults)))).durable 6
      = estoqueOf dbW2 6
        + insertedSum (bulk_create_abastecimentos 100 dbW2
            ([itemW2a, itemW2b].map (fun i => (i, noFaults)))).outcomes 6 :=
  spec_stock_conservation 100 dbW2 [itemW2a, itemW2b] 6 (by decide) (by decide)

/-- C1: a record whose composite key exactly matches an existing ledger row is
skipped idempotently (no ledger row, no stock mutation, state untouched, yet
its correlation token reported accepted), and consequently submitting the
identical timestamped record in two separate calls yields exactly one new
ledger row and one stock increment, with both calls reporting the token
accepted (the second call rolls back, leaving the durable state of the first
call unchanged). -/
theorem spec_idempotent_resubmission (now1 now2 : Int) (db : DBState) (r : AbastecimentoIn)
    (ts : Int) (p : Produto) (tok : String)
    (hN : (db.produtos.map Produto.id).Nodup)
    (hts : r.created_at = some ts)
    (hres : resolveProduto db r.produto_id r.produto_codigo = some p)
    (hnew : dupExists db p.id (parseUsuario r.usuario_id) r.quantidade r.custo_unitario
      (r.total_custo.getD (r.quantidade * r.custo_unitario)) ts = false)
    (htok : r.local_id = some tok)
    (hfresh : ∀ a ∈ db.ledger, a.id < db.nextId) :
    (∀ (s : DBState) (item : AbastecimentoIn) (ts' : Int) (p' : Produto),
        item.created_at = some ts' →
        resolveProduto s item.produto_id item.produto_codigo = some p' →
        dupExists s p'.id (parseUsuario item.usuario_id) item.quantidade item.custo_unitario
          (item.total_custo.getD (item.quantidade * item.custo_unitario)) ts' = true →
        processRecord now2 s item noFaults =
          { state := s, insertedInc := 0, accepted := acceptedOf item,
            conflicts := [], outcome := Outcome.duplicate }) ∧
    (bulk_create_abastecimentos now1 db [(r, noFaults)]).inserted = 1 ∧
    (bulk_create_abastecimentos now1 db [(r, noFaults)]).durable.ledger.length
      = db.ledger.length + 1 ∧
    estoqueOf (bulk_create_abastecimentos now1 db [(r, noFaults)]).durable p.id
      = estoqueOf db p.id + r.quantidade ∧
    (bulk_create_abastecimentos now1 db [(r, noFaults)]).accepted = [tok] ∧
    (bulk_create_abastecimentos now2
      (bulk_create_abastecimentos now1 db [(r, noFaults)]).durable [(r, noFaults)]).inserted = 0 ∧
    (bulk_create_abastecimentos now2
      (bulk_create_abastecimentos now1 db [(r, noFaults)]).durable [(r, noFaults)]).durable
      = (bulk_create_abastecimentos now1 db [(r, noFaults)]).durable ∧
    (bulk_create_abastecimentos now2
      (bulk_create_abastecimentos now1 db [(r, noFaults)]).durable [(r, noFaults)]).accepted
      = [tok] := by
  have part1 : ∀ (s : DBState) (item : AbastecimentoIn) (ts' : Int) (p' : Produto),
      item.created_at = some ts' →
      resolveProduto s item.produto_id item.produto_codigo = some p' →
      dupExists s p'.id (parseUsuario item.usuario_id) item.quantidade item.custo_unitario
        (item.total_custo.getD (item.quantidade * item.custo_unitario)) ts' = true →
      processRecord now2 s item noFaults =
        { state := s, insertedInc := 0, accepted := acceptedOf item,
          conflicts := [], outcome := Outcome.duplicate } := by
    intro s item ts' p' h1 h2 h3
    have hdup : isDupOf s item p' noFaults = true := by
      unfold isDupOf
      rw [h1]
      simpa [noFaults] using h3
    exact processRecord_dup now2 s item noFaults p' rfl rfl h2 hdup
  have hacc : acceptedOf r = [tok] := by unfold acceptedOf; rw [htok]
  have hdup1 : isDupOf db r p noFaults = false := by
    unfold isDupOf
    rw [hts]
    simpa [noFaults] using hnew
  have h2 := processRecord_insert now1 db r noFaults p rfl rfl rfl rfl hres hdup1 hfresh
  have hmem := resolveProduto_mem hres
  have hb1 : (bulk_create_abastecimentos now1 db [(r, noFaults)]).durable
      = (processRecord now1 db r noFaults).state := by
    unfold bulk_create_abastecimentos
    simp only [processItems]
    rw [h2]
    simp
  have hb1i : (bulk_create_abastecimentos now1 db [(r, noFaults)]).inserted = 1 := by
    unfold bulk_create_abastecimentos
    simp only [processItems]
    rw [h2]
    simp
  have hb1a : (bulk_create_abastecimentos now1 db [(r, noFaults)]).accepted = [tok] := by
    unfold bulk_create_abastecimentos
    simp only [processItems]
    rw [h2]
    simp [hacc]
  have hb1len : (bulk_create_abastecimentos now1 db [(r, noFaults)]).durable.ledger.length
      = db.ledger.length + 1 := by
    rw [hb1, h2]
    simp
  have hb1est : estoqueOf (bulk_create_abastecimentos now1 db [(r, noFaults)]).durable p.id
      = estoqueOf db p.id + r.quantidade := by
    rw [hb1, h2]
    have e1 := estoqueOfList_replace_self hN hmem
      (rfl : (prodBump p r.quantidade now1).id = p.id)
    have e2 := estoqueOfList_of_mem hN hmem
    simp only [estoqueOf]
    rw [e2]
    simpa [prodBump] using e1
  have hsig : (processRecord now1 db r noFaults).state.produtos.map prodSig
      = db.produtos.map prodSig := by
    rw [h2]
    exact replaceProduto_sig hN hmem rfl rfl
  have hopt := resolveProduto_sig hsig r.produto_id r.produto_codigo
  rw [hres] at hopt
  cases hq2 : resolveProduto (processRecord now1 db r noFaults).state
      r.produto_id r.produto_codigo with
  | none =>
    rw [hq2] at hopt
    simp at hopt
  | some q2 =>
    rw [hq2] at hopt
    simp at hopt
    have hq2id : q2.id = p.id := congrArg Prod.fst hopt
    have hdupX : dupExists (processRecord now1 db r noFaults).state q2.id
        (parseUsuario r.usuario_id) r.quantidade r.custo_unitario
        (r.total_custo.getD (r.quantidade * r.custo_unitario)) ts = true := by
      rw [h2]
      unfold dupExists
      apply List.any_eq_true.mpr
      refine ⟨{ mkRow now1 db r p with created_at := r.created_at.getD now1 }, ?_, ?_⟩
      · simp
      · unfold dupMatch
        simp [mkRow, hq2id, hts]
    have hdup2 : isDupOf (processRecord now1 db r noFaults).state r q2 noFaults = true := by
      unfold isDupOf
      rw [hts]
      simpa [noFaults] using hdupX
    have h3 := processRecord_dup now2 (processRecord now1 db r noFaults).state r noFaults q2
      rfl rfl hq2 hdup2
    have hb2i : (bulk_create_abastecimentos now2
        (processRecord now1 db r noFaults).state [(r, noFaults)]).inserted = 0 := by
      unfold bulk_create_abastecimentos
      simp only [processItems]
      rw [h3]
      simp
    have hb2d : (bulk_create_abastecimentos now2
        (processRecord now1 db r noFaults).state [(r, noFaults)]).durable
        = (processRecord now1 db r noFaults).state := by
      unfold bulk_create_abastecimentos
      simp only [processItems]
      rw [h3]
      simp
    have hb2a : (bulk_create_abastecimentos now2
        (processRecord now1 db r noFaults).state [(r, noFaults)]).accepted = [tok] := by
      unfold bulk_create_abastecimentos
      simp only [processItems]
      rw [h3]
      simp [hacc]
    refine ⟨part1, hb1i, hb1len, hb1est, hb1a, ?_, ?_, ?_⟩
    · rw [hb1]
      exact hb2i
    · rw [hb1]
      exact hb2d
    · rw [hb1]
      exact hb2a

/-- Catalog row for the C1 witness. -/
def prodW1 : Produto := { id := 7, codigo := "C7", estoque := 0, updated_at := 0 }

/-- Storage state for the C1 witness. -/
def dbW1 : DBState := { produtos := [prodW1], ledger := [], nextId := 0 }

/-- Timestamped record with correlation token `t1` for the C1 witness. -/
def recW1 : AbastecimentoIn :=
  { local_id := some "t1", produto_id := none, produto_codigo := some "C7",
    usuario_id := none, quantidade := 2, custo_unitario := 3, total_custo := none,
    observacao := none, created_at := some 50 }

/-- Witness for C1: the same record submitted in two separate calls is
inserted once, skipped the second time, and both times reported accepted. -/
theorem spec_idempotent_resubmission_witness :
    (bulk_create_abastecimentos 100 dbW1 [(recW1, noFaults)]).inserted = 1 ∧
    (bulk_create_abastecimentos 200
      (bulk_create_abastecimentos 100 dbW1 [(recW1, noFaults)]).durable
      [(recW1, noFaults)]).inserted = 0 ∧
    (bulk_create_abastecimentos 200
      (bulk_create_abastecimentos 100 dbW1 [(recW1, noFaults)]).durable
      [(recW1, noFaults)]).accepted = ["t1"] := by
  have h := spec_idempotent_resubmission 100 200 dbW1 recW1 50 prodW1 "t1" (by decide) rfl
    (by decide) (by decide) rfl (by decide)
  exact ⟨h.2.1, h.2.2.2.2.2.1, h.2.2.2.2.2.2.2⟩
